import Mathlib

/-!
# Verification of `solar_banner.py`

A shallow embedding of the solar-weather banner script: the XML record
extraction (`safe_get`, record-node lookup with fallback path), the four
classification functions, numeric coercion (Python `float()` / `int()`
on the decimal literals this pipeline consumes, modelled over `ℚ`), and
the two 6-line formatters.  Theorems check the specification's claims
against these definitions.
-/

namespace SolarBanner

/-- An XML element: tag, optional text, child elements.  Models the
subset of `xml.etree.ElementTree` the script uses.  Text obtained from a
parsed document is `none` for an empty element, mirroring ElementTree's
`el.text is None`. -/
inductive Xml where
  | mk (tag : String) (text : Option String) (children : List Xml)

def Xml.tag : Xml → String
  | .mk t _ _ => t

def Xml.text : Xml → Option String
  | .mk _ x _ => x

def Xml.children : Xml → List Xml
  | .mk _ _ c => c

/-- `parent.find(tag)` for a plain tag: first direct child with that tag. -/
def findTag (parent : Xml) (tag : String) : Option Xml :=
  parent.children.find? (fun c => c.tag == tag)

/-- Python `str.strip()`: drop leading and trailing whitespace
characters.  (Python also strips some non-ASCII Unicode whitespace; the
feed fields are ASCII, where the two agree.) -/
def pyStrip (s : String) : String :=
  ⟨((s.data.dropWhile Char.isWhitespace).reverse.dropWhile Char.isWhitespace).reverse⟩

/-- `safe_get(parent, tag, default)` from the script: the stripped text
of the first child named `tag`, or `default` when the child is missing
or has no text. -/
def safe_get (parent : Xml) (tag : String) (default : String) : String :=
  match findTag parent tag with
  | none => default
  | some el =>
    match el.text with
    | none => default
    | some t => pyStrip t

/-- `classify_sfi(sfi)` from the script.  The Python float argument is
modelled as a rational; every comparison the script makes is against an
integer threshold, where float and rational order agree. -/
def classify_sfi (sfi : ℚ) : String × String :=
  if sfi < 80 then
    ("schwache obere KW-Baender", "weak upper HF bands")
  else if sfi < 120 then
    ("gute 20-15m Bedingungen", "good 20-15m conditions")
  else if sfi < 160 then
    ("sehr gute 20-10m Bedingungen", "very good 20-10m conditions")
  else
    ("exzellente 20-10m Bedingungen", "excellent 20-10m conditions")

/-- `classify_k(k)` from the script. -/
def classify_k (k : ℤ) : String × String :=
  if k ≤ 1 then
    ("Magnetfeld ruhig", "geomagnetic field quiet")
  else if k ≤ 3 then
    ("Magnetfeld leicht unruhig", "geomagnetic field unsettled")
  else if k = 4 then
    ("Magnetfeld gestoert", "geomagnetic field active")
  else if k ≤ 5 then
    ("geomagnetischer Sturm (K>=5)", "minor geomagnetic storm (K>=5)")
  else
    ("starker geomagnetischer Sturm", "major geomagnetic storm")

/-- `classify_aurora(a)` from the script. -/
def classify_aurora (a : ℚ) : String × String :=
  if a < 5 then
    ("Aurora-DX unwahrscheinlich", "Aurora DX unlikely")
  else if a < 7 then
    ("moegliche Aurora-Aktivitaet", "possible auroral activity")
  else
    ("hohe Aurora-Wahrscheinlichkeit", "high auroral probability")

/-- `classify_xray(xray_str)` from the script: empty string is the quiet
background; otherwise the first character is uppercased and compared.
`Char.toUpper` models Python `str.upper()` on the single character (the
feed's class letters are ASCII, where the two agree). -/
def classify_xray (xray_str : String) : String × String :=
  match xray_str.data with
  | [] => ("X-Ray Hintergrund ruhig", "low X-ray background")
  | c :: _ =>
    let level := c.toUpper
    if level = 'A' ∨ level = 'B' then
      ("X-Ray Hintergrund ruhig", "low X-ray background")
    else if level = 'C' then
      ("C-Flare Aktivitaet", "C-flare activity")
    else if level = 'M' then
      ("M-Flare - kurzzeitige HF-Daempfung moeglich", "M-flare - short HF fade possible")
    else
      ("X-Flare - HF-Blackouts moeglich", "X-flare - HF blackouts possible")

/-- The elements of `root` matched by a relative tag path, in document
order: `root.find("./a/b")` in ElementTree returns the head of this list.
Starting from `[e]`, each path step keeps, for every current element in
order, its direct children carrying that tag. -/
def matchesOfPath (e : Xml) (path : List String) : List Xml :=
  path.foldl
    (fun es t => es.foldr (fun x acc => x.children.filter (fun c => c.tag == t) ++ acc) [])
    [e]

/-- `root.find("./a/b/c")`: first element matching the path. -/
def findPath (e : Xml) (path : List String) : Option Xml :=
  (matchesOfPath e path).head?

/-- The record-node lookup of `main`: `root.find("./channel/item/solardata")`,
falling back to `root.find("./channel/item")`. -/
def findItem (root : Xml) : Option Xml :=
  match findPath root ["channel", "item", "solardata"] with
  | some e => some e
  | none => findPath root ["channel", "item"]

/-- Value of an unsigned decimal digit character. -/
def digitVal (c : Char) : ℕ :=
  c.toNat - 48

/-- The natural number denoted by a digit list, most significant first. -/
def natOfDigits (ds : List Char) : ℕ :=
  ds.foldl (fun n c => 10 * n + digitVal c) 0

/-- Unsigned part of a Python float literal: digits with an optional
decimal point (`"5"`, `"5."`, `".5"`, `"6.2"`); anything else is
rejected. -/
def parseUnsigned (cs : List Char) : Option ℚ :=
  let ip := cs.takeWhile (fun c => c != '.')
  match cs.dropWhile (fun c => c != '.') with
  | [] =>
    if ip.all Char.isDigit && !ip.isEmpty then some (natOfDigits ip) else none
  | '.' :: fp =>
    if ip.all Char.isDigit && fp.all Char.isDigit && (!ip.isEmpty || !fp.isEmpty) then
      some ((natOfDigits ip : ℚ) + (natOfDigits fp : ℚ) / (10 ^ fp.length : ℚ))
    else none
  | _ => none

/-- Python `float(s)` on the plain decimal literals this feed carries
(optional sign, digits, optional decimal point): `none` models the
`ValueError` raised on any other string, such as `"N/A"`.  Exponent,
infinity and NaN forms never occur in this pipeline and are rejected. -/
def parsePyFloat (s : String) : Option ℚ :=
  match s.data with
  | '+' :: r => parseUnsigned r
  | '-' :: r => (parseUnsigned r).map (fun q => -q)
  | r => parseUnsigned r

/-- `float(s or 0)` as the script uses it on a `safe_get` result: the
empty string falls back to the integer `0`; otherwise the string must
parse as a float, and a parse failure is the fatal `ValueError`. -/
def pyFloatOr0 (s : String) : Except String ℚ :=
  if s = "" then .ok 0
  else
    match parsePyFloat s with
    | some q => .ok q
    | none => .error ("could not convert string to float: " ++ s)

/-- Python `int(x)` on a float: truncation toward zero. -/
def ratTrunc (q : ℚ) : ℤ :=
  if q < 0 then -(-q).floor else q.floor

/-- Round to the nearest integer, ties to even — the rounding of Python's
fixed-point formatting. -/
def roundHalfEven (x : ℚ) : ℤ :=
  let f := x.floor
  if x - f < 1 / 2 then f
  else if 1 / 2 < x - f then f + 1
  else if f % 2 = 0 then f else f + 1

/-- Python `f"{x:.1f}"` on the magnitudes this feed carries: the value
rounded to one decimal place, rendered with exactly one digit after the
point.  (Python renders a negative zero for small negative inputs; this
model renders `"0.0"` there, a difference no claim touches.) -/
def fmt1 (x : ℚ) : String :=
  let n := roundHalfEven (x * 10)
  let sign := if n < 0 then "-" else ""
  sign ++ toString (n.natAbs / 10) ++ "." ++ toString (n.natAbs % 10)

/-- The fully-populated record `main` extracts before formatting. -/
structure Report where
  sfi : ℚ
  sn : String
  a : ℤ
  k : ℤ
  xray : String
  aurora : ℚ
  geomag : String
  sigNoise : String
deriving DecidableEq

/-- Field extraction from the record node, in the script's order.  The
numeric fields go through `float(safe_get(item, tag, "0") or 0)` (and
`int(...)` for the A and K indices); a `ValueError` on any of them is
the `Except.error` case. -/
def extractReport (item : Xml) : Except String Report :=
  match pyFloatOr0 (safe_get item "solarflux" "0") with
  | .error e => .error e
  | .ok sfi =>
    match pyFloatOr0 (safe_get item "aindex" "0") with
    | .error e => .error e
    | .ok af =>
      match pyFloatOr0 (safe_get item "kindex" "0") with
      | .error e => .error e
      | .ok kf =>
        match pyFloatOr0 (safe_get item "aurora" "0") with
        | .error e => .error e
        | .ok aurora =>
          .ok ⟨sfi, safe_get item "sunspots" "?", ratTrunc af, ratTrunc kf,
            safe_get item "xray" "", aurora,
            safe_get item "geomagfield" "NoRpt", safe_get item "signalnoise" "?"⟩

/-- `lines_de` from `main`: the six German display lines. -/
def linesDe (nowUtc : String) (r : Report) : List String :=
  [ "DL2HT Solarbericht - " ++ nowUtc,
    "SFI " ++ toString (ratTrunc r.sfi) ++ " / SN " ++ r.sn ++ " - " ++ (classify_sfi r.sfi).1,
    "A=" ++ toString r.a ++ ", K=" ++ toString r.k ++ " - " ++ (classify_k r.k).1,
    "Aurora-Index " ++ fmt1 r.aurora ++ " - " ++ (classify_aurora r.aurora).1,
    "X-Ray " ++ (if r.xray = "" then "n/a" else r.xray) ++ " - " ++ (classify_xray r.xray).1,
    "Geomag: " ++ r.geomag ++ ", Rauschpegel: " ++ r.sigNoise ]

/-- `lines_en` from `main`: the six English display lines. -/
def linesEn (nowUtc : String) (r : Report) : List String :=
  [ "DL2HT Solar Report - " ++ nowUtc,
    "SFI " ++ toString (ratTrunc r.sfi) ++ " / SSN " ++ r.sn ++ " - " ++ (classify_sfi r.sfi).2,
    "A=" ++ toString r.a ++ ", K=" ++ toString r.k ++ " - " ++ (classify_k r.k).2,
    "Aurora index " ++ fmt1 r.aurora ++ " - " ++ (classify_aurora r.aurora).2,
    "X-ray " ++ (if r.xray = "" then "n/a" else r.xray) ++ " - " ++ (classify_xray r.xray).2,
    "Geomag: " ++ r.geomag ++ ", Noise level: " ++ r.sigNoise ]

/-- The pipeline of `main` from a parsed XML root to the two line lists:
record-node lookup with fallback, then field extraction, then
formatting.  `Except.error` is a fatal termination (`SystemExit` for the
missing record node, `ValueError` for a numeric coercion failure); no
lines — and hence no image — are produced in that case. -/
def run (root : Xml) (nowUtc : String) : Except String (List String × List String) :=
  match findItem root with
  | none => .error "Konnte solardata-Element nicht finden"
  | some item =>
    match extractReport item with
    | .error e => .error e
    | .ok r => .ok (linesDe nowUtc r, linesEn nowUtc r)

/-- Severity rank of a `classify_sfi` phrase pair, low band to high, used
to state monotonicity of the classification. -/
def sfiSeverity (p : String × String) : ℕ :=
  if p = ("schwache obere KW-Baender", "weak upper HF bands") then 0
  else if p = ("gute 20-15m Bedingungen", "good 20-15m conditions") then 1
  else if p = ("sehr gute 20-10m Bedingungen", "very good 20-10m conditions") then 2
  else 3

/-- The uppercased first letter of a string, when there is one. -/
def firstUpper (s : String) : Option Char :=
  s.data.head?.map Char.toUpper

/-- The synthetic feed record of the spec's end-to-end test: solarflux
150, sunspots "120", aindex 2, kindex 3, xray "C4", aurora 6.2,
geomagfield "Active", signalnoise "S1". -/
def itemSyn : Xml := .mk "solardata" none
  [ .mk "solarflux" (some "150") [],
    .mk "sunspots" (some "120") [],
    .mk "aindex" (some "2") [],
    .mk "kindex" (some "3") [],
    .mk "xray" (some "C4") [],
    .mk "aurora" (some "6.2") [],
    .mk "geomagfield" (some "Active") [],
    .mk "signalnoise" (some "S1") [] ]

/-- A feed document holding `itemSyn` at `channel/item/solardata`. -/
def rootSyn : Xml :=
  .mk "rss" none [.mk "channel" none [.mk "item" none [itemSyn]]]

/-- `itemSyn` with the `aindex` field carrying the non-numeric text
`"N/A"`. -/
def itemNA : Xml := .mk "solardata" none
  [ .mk "solarflux" (some "150") [],
    .mk "sunspots" (some "120") [],
    .mk "aindex" (some "N/A") [],
    .mk "kindex" (some "3") [],
    .mk "xray" (some "C4") [],
    .mk "aurora" (some "6.2") [],
    .mk "geomagfield" (some "Active") [],
    .mk "signalnoise" (some "S1") [] ]

/-- A feed document holding `itemNA` at `channel/item/solardata`. -/
def rootNA : Xml :=
  .mk "rss" none [.mk "channel" none [.mk "item" none [itemNA]]]

/-- A record node with no children at all: every field falls back to its
default. -/
def itemBare : Xml := .mk "solardata" none []

/-- A record node whose only field is a whitespace-padded sunspot
number. -/
def itemWs : Xml := .mk "solardata" none [.mk "sunspots" (some " 12 ") []]

/-- A record node whose only field is an `xray` element with no text. -/
def itemNoText : Xml := .mk "solardata" none [.mk "xray" none []]

/-- A document with no `channel/item` node at either lookup path. -/
def rootBare : Xml := .mk "rss" none []

/-- `Rat.floor` agrees with the floor of the `FloorRing` structure on `ℚ`. -/
theorem ratFloor_eq_intFloor (q : ℚ) : q.floor = ⌊q⌋ :=
  (Rat.floor_def' q).trans Rat.floor_def.symm

/-- C3: `classify_sfi` returns the weak-upper-HF pair iff `sfi < 80`, the
good-20-15m pair iff `80 ≤ sfi < 120`, the very-good-20-10m pair iff
`120 ≤ sfi < 160`, and the excellent pair iff `sfi ≥ 160`; severity is
monotonic non-decreasing, and the boundary values 79.9, 80, 119.9, 120,
159.9, 160 land in the bands the specification lists. -/
theorem claim_C3 :
    (∀ sfi : ℚ,
      (classify_sfi sfi = ("schwache obere KW-Baender", "weak upper HF bands") ↔ sfi < 80) ∧
      (classify_sfi sfi = ("gute 20-15m Bedingungen", "good 20-15m conditions") ↔
        80 ≤ sfi ∧ sfi < 120) ∧
      (classify_sfi sfi = ("sehr gute 20-10m Bedingungen", "very good 20-10m conditions") ↔
        120 ≤ sfi ∧ sfi < 160) ∧
      (classify_sfi sfi = ("exzellente 20-10m Bedingungen", "excellent 20-10m conditions") ↔
        160 ≤ sfi)) ∧
    (∀ x y : ℚ, x ≤ y → sfiSeverity (classify_sfi x) ≤ sfiSeverity (classify_sfi y)) ∧
    classify_sfi (79.9 : ℚ) = ("schwache obere KW-Baender", "weak upper HF bands") ∧
    classify_sfi 80 = ("gute 20-15m Bedingungen", "good 20-15m conditions") ∧
    classify_sfi (119.9 : ℚ) = ("gute 20-15m Bedingungen", "good 20-15m conditions") ∧
    classify_sfi 120 = ("sehr gute 20-10m Bedingungen", "very good 20-10m conditions") ∧
    classify_sfi (159.9 : ℚ) = ("sehr gute 20-10m Bedingungen", "very good 20-10m conditions") ∧
    classify_sfi 160 = ("exzellente 20-10m Bedingungen", "excellent 20-10m conditions") := by
  refine ⟨fun sfi => ?_, fun x y hxy => ?_, ?_, ?_, ?_, ?_, ?_, ?_⟩
  · unfold classify_sfi
    split_ifs with h1 h2 h3
    · exact ⟨iff_of_true rfl h1,
        iff_of_false (by decide) (fun h => absurd h.1 (not_le.mpr h1)),
        iff_of_false (by decide) (fun h => absurd h.1 (not_le.mpr (h1.trans (by norm_num)))),
        iff_of_false (by decide) (fun h => absurd h (not_le.mpr (h1.trans (by norm_num))))⟩
    · exact ⟨iff_of_false (by decide) h1,
        iff_of_true rfl ⟨not_lt.mp h1, h2⟩,
        iff_of_false (by decide) (fun h => absurd h.1 (not_le.mpr h2)),
        iff_of_false (by decide) (fun h => absurd h (not_le.mpr (h2.trans (by norm_num))))⟩
    · exact ⟨iff_of_false (by decide) h1,
        iff_of_false (by decide) (fun h => h2 h.2),
        iff_of_true rfl ⟨not_lt.mp h2, h3⟩,
        iff_of_false (by decide) (fun h => absurd h (not_le.mpr h3))⟩
    · exact ⟨iff_of_false (by decide) h1,
        iff_of_false (by decide) (fun h => h2 h.2),
        iff_of_false (by decide) (fun h => h3 h.2),
        iff_of_true rfl (not_lt.mp h3)⟩
  · unfold classify_sfi
    split_ifs <;> first | decide | linarith
  · simp [classify_sfi, show (79.9 : ℚ) < 80 from by norm_num]
  · simp [classify_sfi, show ¬((80 : ℚ) < 80) from by norm_num,
      show (80 : ℚ) < 120 from by norm_num]
  · simp [classify_sfi, show ¬((119.9 : ℚ) < 80) from by norm_num,
      show (119.9 : ℚ) < 120 from by norm_num]
  · simp [classify_sfi, show ¬((120 : ℚ) < 80) from by norm_num,
      show ¬((120 : ℚ) < 120) from by norm_num, show (120 : ℚ) < 160 from by norm_num]
  · simp [classify_sfi, show ¬((159.9 : ℚ) < 80) from by norm_num,
      show ¬((159.9 : ℚ) < 120) from by norm_num, show (159.9 : ℚ) < 160 from by norm_num]
  · simp [classify_sfi, show ¬((160 : ℚ) < 80) from by norm_num,
      show ¬((160 : ℚ) < 120) from by norm_num, show ¬((160 : ℚ) < 160) from by norm_num]

/-- Witness for C3 at concrete inputs: the monotonicity hypothesis is
discharged at `70 ≤ 130`. -/
theorem claim_C3_witness :
    sfiSeverity (classify_sfi 70) ≤ sfiSeverity (classify_sfi 130) :=
  claim_C3.2.1 70 130 (by norm_num)

/-- C4: `classify_k` returns the quiet pair iff `k ≤ 1`, the unsettled
pair iff `2 ≤ k ≤ 3`, the active pair iff `k = 4`, the minor-storm pair
iff `k = 5`, and the major-storm pair iff `k > 5`; the spec's boundary
values 1, 3, 4, 5, 6 land in those bands. -/
theorem claim_C4 :
    (∀ k : ℤ,
      (classify_k k = ("Magnetfeld ruhig", "geomagnetic field quiet") ↔ k ≤ 1) ∧
      (classify_k k = ("Magnetfeld leicht unruhig", "geomagnetic field unsettled") ↔
        2 ≤ k ∧ k ≤ 3) ∧
      (classify_k k = ("Magnetfeld gestoert", "geomagnetic field active") ↔ k = 4) ∧
      (classify_k k = ("geomagnetischer Sturm (K>=5)", "minor geomagnetic storm (K>=5)") ↔
        k = 5) ∧
      (classify_k k = ("starker geomagnetischer Sturm", "major geomagnetic storm") ↔ 5 < k)) ∧
    classify_k 1 = ("Magnetfeld ruhig", "geomagnetic field quiet") ∧
    classify_k 3 = ("Magnetfeld leicht unruhig", "geomagnetic field unsettled") ∧
    classify_k 4 = ("Magnetfeld gestoert", "geomagnetic field active") ∧
    classify_k 5 = ("geomagnetischer Sturm (K>=5)", "minor geomagnetic storm (K>=5)") ∧
    classify_k 6 = ("starker geomagnetischer Sturm", "major geomagnetic storm") := by
  refine ⟨fun k => ?_, by decide, by decide, by decide, by decide, by decide⟩
  unfold classify_k
  split_ifs <;>
    refine ⟨?_, ?_, ?_, ?_, ?_⟩ <;>
      first
        | exact iff_of_true rfl (by omega)
        | exact iff_of_false (by decide) (by omega)

/-- C6: `classify_aurora` returns the unlikely pair iff `a < 5`, the
possible pair iff `5 ≤ a < 7`, and the high-probability pair iff
`a ≥ 7`; the spec's boundary values 4.9, 5, 6.9, 7 land in those
bands. -/
theorem claim_C6 :
    (∀ a : ℚ,
      (classify_aurora a = ("Aurora-DX unwahrscheinlich", "Aurora DX unlikely") ↔ a < 5) ∧
      (classify_aurora a = ("moegliche Aurora-Aktivitaet", "possible auroral activity") ↔
        5 ≤ a ∧ a < 7) ∧
      (classify_aurora a = ("hohe Aurora-Wahrscheinlichkeit", "high auroral probability") ↔
        7 ≤ a)) ∧
    classify_aurora (4.9 : ℚ) = ("Aurora-DX unwahrscheinlich", "Aurora DX unlikely") ∧
    classify_aurora 5 = ("moegliche Aurora-Aktivitaet", "possible auroral activity") ∧
    classify_aurora (6.9 : ℚ) = ("moegliche Aurora-Aktivitaet", "possible auroral activity") ∧
    classify_aurora 7 = ("hohe Aurora-Wahrscheinlichkeit", "high auroral probability") := by
  refine ⟨fun a => ?_, ?_, ?_, ?_, ?_⟩
  · unfold classify_aurora
    split_ifs with h1 h2
    · exact ⟨iff_of_true rfl h1,
        iff_of_false (by decide) (fun h => absurd h.1 (not_le.mpr h1)),
        iff_of_false (by decide) (fun h => absurd h (not_le.mpr (h1.trans (by norm_num))))⟩
    · exact ⟨iff_of_false (by decide) h1,
        iff_of_true rfl ⟨not_lt.mp h1, h2⟩,
        iff_of_false (by decide) (fun h => absurd h (not_le.mpr h2))⟩
    · exact ⟨iff_of_false (by decide) h1,
        iff_of_false (by decide) (fun h => h2 h.2),
        iff_of_true rfl (not_lt.mp h2)⟩
  · simp [classify_aurora, show (4.9 : ℚ) < 5 from by norm_num]
  · simp [classify_aurora, show ¬((5 : ℚ) < 5) from by norm_num,
      show (5 : ℚ) < 7 from by norm_num]
  · simp [classify_aurora, show ¬((6.9 : ℚ) < 5) from by norm_num,
      show (6.9 : ℚ) < 7 from by norm_num]
  · simp [classify_aurora, show ¬((7 : ℚ) < 5) from by norm_num,
      show ¬((7 : ℚ) < 7) from by norm_num]

/-- C5: `classify_xray` returns the low-background pair iff the string is
empty or its uppercased first letter is A or B, the C-flare pair iff
that letter is C, the M-flare pair iff it is M, and the
X-flare/blackout pair for every other non-empty string; the spec's
examples "", "B5", "C3", "c3", "M1", "X2" land in those bands. -/
theorem claim_C5 :
    (∀ s : String,
      (classify_xray s = ("X-Ray Hintergrund ruhig", "low X-ray background") ↔
        s.data = [] ∨ firstUpper s = some 'A' ∨ firstUpper s = some 'B') ∧
      (classify_xray s = ("C-Flare Aktivitaet", "C-flare activity") ↔
        firstUpper s = some 'C') ∧
      (classify_xray s =
          ("M-Flare - kurzzeitige HF-Daempfung moeglich", "M-flare - short HF fade possible") ↔
        firstUpper s = some 'M') ∧
      (classify_xray s = ("X-Flare - HF-Blackouts moeglich", "X-flare - HF blackouts possible") ↔
        s.data ≠ [] ∧ firstUpper s ≠ some 'A' ∧ firstUpper s ≠ some 'B' ∧
          firstUpper s ≠ some 'C' ∧ firstUpper s ≠ some 'M')) ∧
    classify_xray "" = ("X-Ray Hintergrund ruhig", "low X-ray background") ∧
    classify_xray "B5" = ("X-Ray Hintergrund ruhig", "low X-ray background") ∧
    classify_xray "C3" = ("C-Flare Aktivitaet", "C-flare activity") ∧
    classify_xray "c3" = ("C-Flare Aktivitaet", "C-flare activity") ∧
    classify_xray "M1" =
      ("M-Flare - kurzzeitige HF-Daempfung moeglich", "M-flare - short HF fade possible") ∧
    classify_xray "X2" =
      ("X-Flare - HF-Blackouts moeglich", "X-flare - HF blackouts possible") := by
  refine ⟨fun s => ?_, by decide, by decide, by decide, by decide, by decide, by decide⟩
  rcases hd : s.data with _ | ⟨c, cs⟩
  · simp [classify_xray, firstUpper, hd]
  · have hcs : classify_xray s =
        (if c.toUpper = 'A' ∨ c.toUpper = 'B' then
          ("X-Ray Hintergrund ruhig", "low X-ray background")
        else if c.toUpper = 'C' then ("C-Flare Aktivitaet", "C-flare activity")
        else if c.toUpper = 'M' then
          ("M-Flare - kurzzeitige HF-Daempfung moeglich", "M-flare - short HF fade possible")
        else ("X-Flare - HF-Blackouts moeglich", "X-flare - HF blackouts possible")) := by
      simp [classify_xray, hd]
    have hfu : firstUpper s = some c.toUpper := by simp [firstUpper, hd]
    rw [hcs, hfu]
    split_ifs with hA hC hM
    · exact ⟨iff_of_true rfl (Or.inr (by simpa using hA)),
        iff_of_false (by decide)
          (by rcases hA with h | h <;> simp [h]),
        iff_of_false (by decide)
          (by rcases hA with h | h <;> simp [h]),
        iff_of_false (by decide) (fun h => by
          rcases hA with hh | hh
          · exact h.2.1 (by simp [hh])
          · exact h.2.2.1 (by simp [hh]))⟩
    · refine ⟨iff_of_false (by decide) ?_, iff_of_true rfl (by simp [hC]),
        iff_of_false (by decide) (by simp [hC]),
        iff_of_false (by decide) (fun h => h.2.2.2.1 (by simp [hC]))⟩
      rintro (h | h | h)
      · simp at h
      · exact hA (Or.inl (by simpa using h))
      · exact hA (Or.inr (by simpa using h))
    · refine ⟨iff_of_false (by decide) ?_, iff_of_false (by decide) (by simpa using hC),
        iff_of_true rfl (by simp [hM]),
        iff_of_false (by decide) (fun h => h.2.2.2.2 (by simp [hM]))⟩
      rintro (h | h | h)
      · simp at h
      · exact hA (Or.inl (by simpa using h))
      · exact hA (Or.inr (by simpa using h))
    · refine ⟨iff_of_false (by decide) ?_, iff_of_false (by decide) (by simpa using hC),
        iff_of_false (by decide) (by simpa using hM),
        iff_of_true rfl ⟨by simp, ?_, ?_, by simpa using hC, by simpa using hM⟩⟩
      · rintro (h | h | h)
        · simp at h
        · exact hA (Or.inl (by simpa using h))
        · exact hA (Or.inr (by simpa using h))
      · simpa using fun h => hA (Or.inl h)
      · simpa using fun h => hA (Or.inr h)

/-- C10: every classifier is total — each returns one of its finitely
many table rows for every input of its type — and out-of-range negative
inputs fall into the lowest band: a negative SFI is the weak pair, a
negative K index the quiet pair, a negative aurora index the unlikely
pair. -/
theorem claim_C10 :
    (∀ sfi : ℚ,
      classify_sfi sfi = ("schwache obere KW-Baender", "weak upper HF bands") ∨
      classify_sfi sfi = ("gute 20-15m Bedingungen", "good 20-15m conditions") ∨
      classify_sfi sfi = ("sehr gute 20-10m Bedingungen", "very good 20-10m conditions") ∨
      classify_sfi sfi = ("exzellente 20-10m Bedingungen", "excellent 20-10m conditions")) ∧
    (∀ k : ℤ,
      classify_k k = ("Magnetfeld ruhig", "geomagnetic field quiet") ∨
      classify_k k = ("Magnetfeld leicht unruhig", "geomagnetic field unsettled") ∨
      classify_k k = ("Magnetfeld gestoert", "geomagnetic field active") ∨
      classify_k k = ("geomagnetischer Sturm (K>=5)", "minor geomagnetic storm (K>=5)") ∨
      classify_k k = ("starker geomagnetischer Sturm", "major geomagnetic storm")) ∧
    (∀ a : ℚ,
      classify_aurora a = ("Aurora-DX unwahrscheinlich", "Aurora DX unlikely") ∨
      classify_aurora a = ("moegliche Aurora-Aktivitaet", "possible auroral activity") ∨
      classify_aurora a = ("hohe Aurora-Wahrscheinlichkeit", "high auroral probability")) ∧
    (∀ s : String,
      classify_xray s = ("X-Ray Hintergrund ruhig", "low X-ray background") ∨
      classify_xray s = ("C-Flare Aktivitaet", "C-flare activity") ∨
      classify_xray s =
        ("M-Flare - kurzzeitige HF-Daempfung moeglich", "M-flare - short HF fade possible") ∨
      classify_xray s =
        ("X-Flare - HF-Blackouts moeglich", "X-flare - HF blackouts possible")) ∧
    (∀ sfi : ℚ, sfi < 0 →
      classify_sfi sfi = ("schwache obere KW-Baender", "weak upper HF bands")) ∧
    (∀ k : ℤ, k < 0 → classify_k k = ("Magnetfeld ruhig", "geomagnetic field quiet")) ∧
    (∀ a : ℚ, a < 0 →
      classify_aurora a = ("Aurora-DX unwahrscheinlich", "Aurora DX unlikely")) := by
  refine ⟨fun sfi => ?_, fun k => ?_, fun a => ?_, fun s => ?_,
    fun sfi h => ?_, fun k h => ?_, fun a h => ?_⟩
  · unfold classify_sfi; split_ifs <;> simp
  · unfold classify_k; split_ifs <;> simp
  · unfold classify_aurora; split_ifs <;> simp
  · rcases hd : s.data with _ | ⟨c, cs⟩
    · simp [classify_xray, hd]
    · simp only [classify_xray, hd]
      split_ifs <;> (simp; try tauto)
  · simp [classify_sfi, show sfi < 80 from h.trans (by norm_num)]
  · simp [classify_k, show k ≤ 1 from by omega]
  · simp [classify_aurora, show a < 5 from h.trans (by norm_num)]

/-- Witness for C10: the negative-input clauses applied at `-1`. -/
theorem claim_C10_witness :
    classify_sfi (-1) = ("schwache obere KW-Baender", "weak upper HF bands") ∧
    classify_k (-1) = ("Magnetfeld ruhig", "geomagnetic field quiet") ∧
    classify_aurora (-1) = ("Aurora-DX unwahrscheinlich", "Aurora DX unlikely") :=
  ⟨claim_C10.2.2.2.2.1 (-1) (by norm_num),
   claim_C10.2.2.2.2.2.1 (-1) (by norm_num),
   claim_C10.2.2.2.2.2.2 (-1) (by norm_num)⟩

theorem ratTrunc_eq_floor_of_nonneg (q : ℚ) (h : 0 ≤ q) : ratTrunc q = ⌊q⌋ := by
  unfold ratTrunc
  rw [if_neg (not_lt.mpr h), ratFloor_eq_intFloor]

theorem ratTrunc_natCast (n : ℕ) : ratTrunc ((n : ℕ) : ℚ) = n := by
  rw [ratTrunc_eq_floor_of_nonneg _ (by positivity)]
  simp

theorem ratTrunc_zero : ratTrunc 0 = 0 := by
  rw [ratTrunc_eq_floor_of_nonneg _ le_rfl]
  simp

theorem ratTrunc_150 : ratTrunc (150 : ℚ) = 150 := by
  rw [show (150 : ℚ) = ((150 : ℕ) : ℚ) by norm_num, ratTrunc_natCast]
  norm_num

theorem ratTrunc_38 : ratTrunc (19 / 5 : ℚ) = 3 := by
  rw [ratTrunc_eq_floor_of_nonneg _ (by norm_num)]
  rw [show (19 / 5 : ℚ) = ((19 : ℤ) : ℚ) / ((5 : ℕ) : ℚ) by norm_num,
    Rat.floor_intCast_div_natCast]
  decide

theorem pyFloatOr0_zero : pyFloatOr0 "0" = .ok 0 := by
  have h : pyFloatOr0 "0" = .ok (((0 : ℕ) : ℚ)) := rfl
  rw [h]
  norm_num

theorem pyFloatOr0_38 : pyFloatOr0 "3.8" = .ok (19 / 5) := by
  have h : pyFloatOr0 "3.8" = .ok (((3 : ℕ) : ℚ) + ((8 : ℕ) : ℚ) / (10 ^ 1 : ℚ)) := rfl
  rw [h]
  norm_num

theorem roundHalfEven_intCast (z : ℤ) : roundHalfEven ((z : ℤ) : ℚ) = z := by
  unfold roundHalfEven
  rw [ratFloor_eq_intFloor, Int.floor_intCast]
  norm_num

theorem fmt1_62 : fmt1 (31 / 5 : ℚ) = "6.2" := by
  unfold fmt1
  rw [show (31 / 5 : ℚ) * 10 = ((62 : ℤ) : ℚ) by norm_num, roundHalfEven_intCast]
  decide

theorem fmt1_decimal (x : ℚ) :
    ∃ (p : String) (d : ℕ), d < 10 ∧ fmt1 x = p ++ "." ++ toString d := by
  refine ⟨(if roundHalfEven (x * 10) < 0 then "-" else "") ++
      toString ((roundHalfEven (x * 10)).natAbs / 10),
    (roundHalfEven (x * 10)).natAbs % 10, Nat.mod_lt _ (by norm_num), ?_⟩
  simp [fmt1, String.append_assoc]

/-- C1 (code bug): a feed record whose `aindex` field carries the
non-numeric text `"N/A"` does NOT degrade to the default 0 — the
`float()` coercion fails and the run terminates with the error, because
`safe_get(...) or 0` only catches the empty string.  This theorem
evaluates the pipeline at the failing input. -/
theorem claim_C1_code_eval :
    (∀ nowUtc : String,
      run rootNA nowUtc = .error "could not convert string to float: N/A") ∧
    extractReport itemNA = .error "could not convert string to float: N/A" ∧
    safe_get itemNA "aindex" "0" = "N/A" :=
  ⟨fun _ => rfl, rfl, rfl⟩

/-- C2: a field that is missing or has no text is substituted by the
default passed for it; a present field contributes its trimmed text; a
record with no fields at all extracts to the fully-defaulted report
(solarflux/aindex/kindex/aurora 0, sunspots "?", xray "", geomagfield
"NoRpt", signalnoise "?"); and a record missing the `kindex` element
yields `k = 0` with the quiet classification, without failing on that
field. -/
theorem claim_C2 :
    (∀ (item : Xml) (tag d : String), findTag item tag = none → safe_get item tag d = d) ∧
    (∀ (item : Xml) (tag d : String) (el : Xml),
      findTag item tag = some el → el.text = none → safe_get item tag d = d) ∧
    (∀ (item : Xml) (tag d : String) (el : Xml) (t : String),
      findTag item tag = some el → el.text = some t → safe_get item tag d = pyStrip t) ∧
    (∀ item : Xml, findTag item "kindex" = none →
      ∀ r : Report, extractReport item = .ok r →
        r.k = 0 ∧ classify_k r.k = ("Magnetfeld ruhig", "geomagnetic field quiet")) ∧
    (∀ item : Xml, item.children = [] →
      extractReport item = .ok ⟨0, "?", 0, 0, "", 0, "NoRpt", "?"⟩) := by
  refine ⟨fun item tag d h => ?_, fun item tag d el h1 h2 => ?_,
    fun item tag d el t h1 h2 => ?_, fun item hk r hr => ?_, fun item hc => ?_⟩
  · simp [safe_get, h]
  · simp [safe_get, h1, h2]
  · simp [safe_get, h1, h2]
  · have hsg : safe_get item "kindex" "0" = "0" := by simp [safe_get, hk]
    unfold extractReport at hr
    simp only [hsg, pyFloatOr0_zero] at hr
    rcases E1 : pyFloatOr0 (safe_get item "solarflux" "0") with e1 | sfi <;>
      rcases E2 : pyFloatOr0 (safe_get item "aindex" "0") with e2 | af <;>
        rcases E3 : pyFloatOr0 (safe_get item "aurora" "0") with e3 | au <;>
          simp [E1, E2, E3] at hr
    subst hr
    refine ⟨ratTrunc_zero, ?_⟩
    show classify_k (ratTrunc 0) = _
    rw [ratTrunc_zero]
    decide
  · have hs : ∀ tag d, safe_get item tag d = d := by
      intro tag d
      simp [safe_get, findTag, hc]
    unfold extractReport
    simp only [hs, pyFloatOr0_zero]
    simp [ratTrunc_zero]

/-- Witness for C2: the defaulting clauses applied at concrete records —
a bare record, a record with only whitespace-padded sunspot text, and a
record with a textless xray element. -/
theorem claim_C2_witness :
    safe_get itemBare "kindex" "0" = "0" ∧
    safe_get itemWs "sunspots" "?" = pyStrip " 12 " ∧
    safe_get itemNoText "xray" "x" = "x" ∧
    extractReport itemBare = .ok ⟨0, "?", 0, 0, "", 0, "NoRpt", "?"⟩ ∧
    (⟨0, "?", 0, 0, "", 0, "NoRpt", "?"⟩ : Report).k = 0 ∧
    classify_k (⟨0, "?", 0, 0, "", 0, "NoRpt", "?"⟩ : Report).k =
      ("Magnetfeld ruhig", "geomagnetic field quiet") := by
  have h5 := claim_C2.2.2.2.2 itemBare rfl
  have h4 := claim_C2.2.2.2.1 itemBare rfl _ h5
  exact ⟨claim_C2.1 itemBare "kindex" "0" rfl,
    claim_C2.2.2.1 itemWs "sunspots" "?" (.mk "sunspots" (some " 12 ") []) " 12 " rfl rfl,
    claim_C2.2.1 itemNoText "xray" "x" (.mk "xray" none []) rfl rfl,
    h5, h4.1, h4.2⟩

/-- C9: the record node is looked up first at `channel/item/solardata`;
only when that path has no match is `channel/item` consulted; when both
are absent the run terminates with the diagnostic message and produces
no line lists (hence no image). -/
theorem claim_C9 :
    (∀ root e : Xml,
      findPath root ["channel", "item", "solardata"] = some e → findItem root = some e) ∧
    (∀ root : Xml, findPath root ["channel", "item", "solardata"] = none →
      findItem root = findPath root ["channel", "item"]) ∧
    (∀ root : Xml, findPath root ["channel", "item", "solardata"] = none →
      findPath root ["channel", "item"] = none → findItem root = none) ∧
    (∀ (root : Xml) (nowUtc : String), findItem root = none →
      run root nowUtc = .error "Konnte solardata-Element nicht finden") := by
  refine ⟨fun root e h => ?_, fun root h => ?_, fun root h1 h2 => ?_,
    fun root nowUtc h => ?_⟩
  · unfold findItem
    rw [h]
  · unfold findItem
    rw [h]
  · unfold findItem
    rw [h1, h2]
  · unfold run
    rw [h]

/-- Witness for C9: a document with no record node at either path makes
the run fail with the diagnostic, and the synthetic document resolves to
its `solardata` node through the primary path. -/
theorem claim_C9_witness :
    findItem rootBare = none ∧
    run rootBare "ts" = .error "Konnte solardata-Element nicht finden" ∧
    findItem rootSyn = some itemSyn :=
  ⟨claim_C9.2.2.1 rootBare rfl rfl,
   claim_C9.2.2.2 rootBare "ts" (claim_C9.2.2.1 rootBare rfl rfl),
   claim_C9.1 rootSyn itemSyn rfl⟩

/-- C7: for every report and timestamp the formatter yields exactly six
German and six English lines in the fixed order header, SFI/sunspots,
A/K, aurora, xray, geomag/noise; the xray line shows the literal "n/a"
when the xray class is empty; the SFI is displayed truncated to an
integer; A and K indices come from float parsing followed by truncation
("3.8" becomes 3, not 4); and the aurora index is rendered with exactly
one digit after the decimal point. -/
theorem claim_C7 :
    (∀ (nowUtc : String) (r : Report),
      (linesDe nowUtc r).length = 6 ∧ (linesEn nowUtc r).length = 6) ∧
    (∀ (nowUtc : String) (r : Report),
      linesDe nowUtc r =
        [ "DL2HT Solarbericht - " ++ nowUtc,
          "SFI " ++ toString (ratTrunc r.sfi) ++ " / SN " ++ r.sn ++ " - " ++
            (classify_sfi r.sfi).1,
          "A=" ++ toString r.a ++ ", K=" ++ toString r.k ++ " - " ++ (classify_k r.k).1,
          "Aurora-Index " ++ fmt1 r.aurora ++ " - " ++ (classify_aurora r.aurora).1,
          "X-Ray " ++ (if r.xray = "" then "n/a" else r.xray) ++ " - " ++
            (classify_xray r.xray).1,
          "Geomag: " ++ r.geomag ++ ", Rauschpegel: " ++ r.sigNoise ] ∧
      linesEn nowUtc r =
        [ "DL2HT Solar Report - " ++ nowUtc,
          "SFI " ++ toString (ratTrunc r.sfi) ++ " / SSN " ++ r.sn ++ " - " ++
            (classify_sfi r.sfi).2,
          "A=" ++ toString r.a ++ ", K=" ++ toString r.k ++ " - " ++ (classify_k r.k).2,
          "Aurora index " ++ fmt1 r.aurora ++ " - " ++ (classify_aurora r.aurora).2,
          "X-ray " ++ (if r.xray = "" then "n/a" else r.xray) ++ " - " ++
            (classify_xray r.xray).2,
          "Geomag: " ++ r.geomag ++ ", Noise level: " ++ r.sigNoise ]) ∧
    (∀ (nowUtc : String) (r : Report),
      (linesDe nowUtc { r with xray := "" })[4]? =
        some "X-Ray n/a - X-Ray Hintergrund ruhig" ∧
      (linesEn nowUtc { r with xray := "" })[4]? =
        some "X-ray n/a - low X-ray background") ∧
    pyFloatOr0 "3.8" = .ok (19 / 5) ∧
    ratTrunc (19 / 5 : ℚ) = 3 ∧
    (∀ x : ℚ, ∃ (p : String) (d : ℕ), d < 10 ∧ fmt1 x = p ++ "." ++ toString d) :=
  ⟨fun _ _ => ⟨rfl, rfl⟩, fun _ _ => ⟨rfl, rfl⟩, fun _ _ => ⟨rfl, rfl⟩,
   pyFloatOr0_38, ratTrunc_38, fmt1_decimal⟩

/-- C8: on the synthetic feed the pipeline succeeds and renders German
line 2 as `SFI 150 / SN 120 - sehr gute 20-10m Bedingungen` and English
line 4 as `Aurora index 6.2 - possible auroral activity`. -/
theorem claim_C8 (nowUtc : String) :
    ∃ de en, run rootSyn nowUtc = .ok (de, en) ∧
      de[1]? = some "SFI 150 / SN 120 - sehr gute 20-10m Bedingungen" ∧
      en[3]? = some "Aurora index 6.2 - possible auroral activity" := by
  have hex : extractReport itemSyn =
      .ok ⟨((150 : ℕ) : ℚ), "120", ratTrunc ((2 : ℕ) : ℚ), ratTrunc ((3 : ℕ) : ℚ), "C4",
        ((6 : ℕ) : ℚ) + ((2 : ℕ) : ℚ) / (10 ^ 1 : ℚ), "Active", "S1"⟩ := rfl
  have hex2 : extractReport itemSyn =
      .ok ⟨150, "120", 2, 3, "C4", 31 / 5, "Active", "S1"⟩ := by
    have ha : ratTrunc ((2 : ℕ) : ℚ) = (2 : ℤ) := by rw [ratTrunc_natCast]; norm_num
    have hk : ratTrunc ((3 : ℕ) : ℚ) = (3 : ℤ) := by rw [ratTrunc_natCast]; norm_num
    have hs : ((150 : ℕ) : ℚ) = 150 := by norm_num
    have hau : ((6 : ℕ) : ℚ) + ((2 : ℕ) : ℚ) / (10 ^ 1 : ℚ) = 31 / 5 := by norm_num
    rw [hex, ha, hk, hs, hau]
  have hrun : run rootSyn nowUtc =
      .ok (linesDe nowUtc ⟨150, "120", 2, 3, "C4", 31 / 5, "Active", "S1"⟩,
        linesEn nowUtc ⟨150, "120", 2, 3, "C4", 31 / 5, "Active", "S1"⟩) := by
    unfold run
    simp only [show findItem rootSyn = some itemSyn from rfl, hex2]
  have hsfi : classify_sfi (150 : ℚ) =
      ("sehr gute 20-10m Bedingungen", "very good 20-10m conditions") := by
    simp [classify_sfi, show ¬((150 : ℚ) < 80) from by norm_num,
      show ¬((150 : ℚ) < 120) from by norm_num, show (150 : ℚ) < 160 from by norm_num]
  have haur : classify_aurora (31 / 5 : ℚ) =
      ("moegliche Aurora-Aktivitaet", "possible auroral activity") := by
    simp [classify_aurora, show ¬((31 / 5 : ℚ) < 5) from by norm_num,
      show (31 / 5 : ℚ) < 7 from by norm_num]
  refine ⟨_, _, hrun, ?_, ?_⟩
  · have h1 : (linesDe nowUtc
        (⟨150, "120", 2, 3, "C4", 31 / 5, "Active", "S1"⟩ : Report))[1]? =
        some ("SFI " ++ toString (ratTrunc (150 : ℚ)) ++ " / SN " ++ "120" ++ " - " ++
          (classify_sfi (150 : ℚ)).1) := rfl
    rw [h1, ratTrunc_150, hsfi]
    decide
  · have h2 : (linesEn nowUtc
        (⟨150, "120", 2, 3, "C4", 31 / 5, "Active", "S1"⟩ : Report))[3]? =
        some ("Aurora index " ++ fmt1 (31 / 5 : ℚ) ++ " - " ++
          (classify_aurora (31 / 5 : ℚ)).2) := rfl
    rw [h2, fmt1_62, haur]
    decide

end SolarBanner
